import Mathlib

/-!
Verification development for the workout microservice
(`app/main.py`, `app/rabbit.py`, `app/models.py`, `app/schemas.py`).

The resilience layer of the service is embedded shallowly:

* `check_user_exists_via_http` embeds `_check_user_exists_via_http`
  (`app/main.py` lines 57-99): one HTTP GET to the users service,
  translated into the 404/503 error taxonomy.
* `Breaker` and `Breaker.execute` embed the circuit breaker guarding
  that call.  The breaker implementation itself (`pybreaker`) is a
  third-party library whose code is not part of this repository; it is
  modelled from the specification's state machine (section 4.1): Closed
  passes calls through and counts failures, Open rejects calls until
  `resetTimeout` has elapsed, HalfOpen allows one trial call.
* `ensure_user_exists` embeds `ensure_user_exists` (`app/main.py`
  lines 102-117), mapping a breaker-open rejection to a distinct 503.
* `create_workout` embeds the POST /workouts handler (`app/main.py`
  lines 121-156): dependency check, local write, event publish.
* `aggregate` models the aggregation orchestrator, which belongs to a
  sibling service of the repository and is not under `app/`.
* `rabbitModuleInit` embeds the module-level configuration reads of
  `app/rabbit.py` (lines 7 and 11).

Python exceptions are modelled with `Except`; the database session is a
list of rows with an autoincrementing primary key; wall-clock time is a
natural-number timestamp.
-/

/-- Result of the `httpx` GET against the users service, as seen by
`_check_user_exists_via_http`: either the request itself raised
(`httpx.RequestError`: connection refused, DNS failure, timeout), or a
response with some status code came back. -/
inductive HttpOutcome where
  | transportError : HttpOutcome
  | status : Nat → HttpOutcome
  deriving Repr, DecidableEq

/-- A raised `HTTPException`: status code plus detail message. -/
structure HTTPError where
  status_code : Nat
  detail : String
  deriving Repr, DecidableEq

/-- Detail string of the transport-failure 503 (`app/main.py` line 77). -/
def transportUnavailableDetail : String :=
  "User service unavailable. Please try again later."

/-- Detail string of the downstream-5xx 503 (`app/main.py` line 91). -/
def downstreamErrorDetail : String :=
  "User service error. Please try again later."

/-- Detail string of the unexpected-status 503 (`app/main.py` line 98). -/
def unexpectedStatusDetail : String :=
  "Unable to verify user at this time."

/-- Detail string of the circuit-open 503 (`app/main.py` line 116). -/
def circuitOpenDetail : String :=
  "User service circuit is open. Please try again later."

/-- Embeds `_check_user_exists_via_http` (`app/main.py` lines 57-99).
The HTTP call's outcome is passed in as `resp`.  A transport error
raises 503; a 404 raises 404 naming the user; a status of 500 or more
raises 503; any other status that is not 200 raises 503; exactly 200
returns normally. -/
def check_user_exists_via_http (user_id : Int) (resp : HttpOutcome) :
    Except HTTPError Unit :=
  match resp with
  | .transportError =>
      .error ⟨503, transportUnavailableDetail⟩
  | .status code =>
      if code = 404 then
        .error ⟨404, "User " ++ toString user_id ++ " not found."⟩
      else if 500 ≤ code then
        .error ⟨503, downstreamErrorDetail⟩
      else if code ≠ 200 then
        .error ⟨503, unexpectedStatusDetail⟩
      else
        .ok ()

/-- Circuit-breaker state tag (spec section 3, `CircuitState`). -/
inductive BreakerTag where
  | closed : BreakerTag
  | opened : BreakerTag
  | halfOpen : BreakerTag
  deriving Repr, DecidableEq

/-- Modelled from the spec: the circuit breaker protecting the users
service is `pybreaker.CircuitBreaker` (declared at `app/main.py` lines
52-55), a third-party library whose implementation is not part of this
repository; its state is modelled from the spec's section 4.1 data
model: a state tag, `failureCount`, the configured `failureThreshold`
(`fail_max`) and `resetTimeout`, and `openedAt`, the timestamp recorded
on transition to Open. -/
structure Breaker where
  failureThreshold : Nat
  resetTimeout : Nat
  tag : BreakerTag
  failureCount : Nat
  openedAt : Nat
  deriving Repr, DecidableEq

/-- A freshly constructed breaker: Closed with zero failures. -/
def Breaker.fresh (failMax resetTimeout : Nat) : Breaker :=
  ⟨failMax, resetTimeout, .closed, 0, 0⟩

/-- `fail_max` of `user_service_breaker`: `USER_CB_FAIL_MAX`
(`app/main.py` line 48), 3 when the environment variable is unset. -/
def USER_CB_FAIL_MAX : Nat := 3

/-- `reset_timeout` of `user_service_breaker`: `USER_CB_RESET_TIMEOUT`
(`app/main.py` line 49), 30 when the environment variable is unset. -/
def USER_CB_RESET_TIMEOUT : Nat := 30

/-- The process-wide breaker instance (`app/main.py` lines 52-55) at
process start, under default configuration. -/
def user_service_breaker : Breaker :=
  Breaker.fresh USER_CB_FAIL_MAX USER_CB_RESET_TIMEOUT

/-- What one guarded call produced, seen from `ensure_user_exists`:
the operation ran and succeeded, the operation ran and its exception
propagates, or the breaker rejected the call without running it
(`CircuitBreakerError`). -/
inductive GuardedResult where
  | opOk : GuardedResult
  | opFailed : HTTPError → GuardedResult
  | rejectedOpen : GuardedResult
  deriving Repr, DecidableEq

/-- Modelled from the spec: the HalfOpen trial (spec section 4.1).  The
single trial call runs; success transitions to Closed with
`failureCount = 0`; failure transitions back to Open with
`openedAt = now` and `failureCount` left unchanged (at/above
threshold). -/
def Breaker.halfOpenTrial (b : Breaker) (now : Nat)
    (op : Except HTTPError Unit) : Breaker × Bool × GuardedResult :=
  match op with
  | .ok _ =>
      ({ b with tag := .closed, failureCount := 0 }, true, .opOk)
  | .error e =>
      ({ b with tag := .opened, openedAt := now }, true, .opFailed e)

/-- Modelled from the spec: `execute(operation)` of the circuit breaker
(spec section 4.1).  Closed: the call passes through; on failure the
count is incremented and, when it reaches `failureThreshold`, the
breaker transitions to Open recording `openedAt = now`; on success the
count resets to 0.  Open: calls are rejected immediately without
attempting the operation, unless `now - openedAt ≥ resetTimeout`, in
which case the breaker transitions to HalfOpen before evaluating the
call.  HalfOpen: one trial call.  The returned `Bool` records whether
the underlying operation was performed (a network call happened). -/
def Breaker.execute (b : Breaker) (now : Nat)
    (op : Except HTTPError Unit) : Breaker × Bool × GuardedResult :=
  match b.tag with
  | .closed =>
      match op with
      | .ok _ =>
          ({ b with failureCount := 0 }, true, .opOk)
      | .error e =>
          if b.failureThreshold ≤ b.failureCount + 1 then
            ({ b with tag := .opened, failureCount := b.failureCount + 1,
                      openedAt := now }, true, .opFailed e)
          else
            ({ b with failureCount := b.failureCount + 1 }, true, .opFailed e)
  | .opened =>
      if b.resetTimeout ≤ now - b.openedAt then
        b.halfOpenTrial now op
      else
        (b, false, .rejectedOpen)
  | .halfOpen =>
      b.halfOpenTrial now op

/-- Embeds `ensure_user_exists` (`app/main.py` lines 102-117): wraps
the user check in the breaker; a `CircuitBreakerError` (rejection while
Open) is mapped to the distinct circuit-open 503; any other raised
`HTTPException` propagates unchanged.  Returns the updated breaker,
whether a network call was performed, and the outcome. -/
def ensure_user_exists (b : Breaker) (now : Nat) (resp : HttpOutcome)
    (user_id : Int) : Breaker × Bool × Except HTTPError Unit :=
  match b.execute now (check_user_exists_via_http user_id resp) with
  | (b', performed, .opOk) => (b', performed, .ok ())
  | (b', performed, .opFailed e) => (b', performed, .error e)
  | (b', performed, .rejectedOpen) =>
      (b', performed, .error ⟨503, circuitOpenDetail⟩)

/-- A Python value appearing in an event payload: an integer, a string,
or `None`. -/
inductive PyValue where
  | pint : Int → PyValue
  | pstr : String → PyValue
  | pnone : PyValue
  deriving Repr, DecidableEq

/-- Embeds the request schema `WorkoutInput` (`app/schemas.py`
lines 17-23).  Dates are carried as their string rendering. -/
structure WorkoutInput where
  user_id : Int
  workout_type : String
  duration_minutes : Int
  calories : Option Int
  workout_date : String
  notes : Option String
  deriving Repr, DecidableEq

/-- Embeds the ORM row `WorkoutDB` (`app/models.py` lines 14-24): the
primary key is named `workout_id`; the other mapped columns are
`user_id`, `workout_type`, `duration_minutes`, `calories`,
`workout_date`, `notes`. -/
structure WorkoutDB where
  workout_id : Nat
  user_id : Int
  workout_type : String
  duration_minutes : Int
  calories : Option Int
  workout_date : String
  notes : Option String
  deriving Repr, DecidableEq

/-- Python attribute access on a `WorkoutDB` instance: the mapped
attributes of `app/models.py` are present; any other name (in
particular `id`, which the class does not define) raises
`AttributeError`, modelled as `none`. -/
def WorkoutDB.getAttr (w : WorkoutDB) : String → Option PyValue
  | "workout_id" => some (.pint w.workout_id)
  | "user_id" => some (.pint w.user_id)
  | "workout_type" => some (.pstr w.workout_type)
  | "duration_minutes" => some (.pint w.duration_minutes)
  | "calories" =>
      some (match w.calories with
            | some c => .pint c
            | none => .pnone)
  | "workout_date" => some (.pstr w.workout_date)
  | "notes" =>
      some (match w.notes with
            | some s => .pstr s
            | none => .pnone)
  | _ => none

/-- An event delivered to the broker (`app/rabbit.py` lines 14-55):
the exchange it was published on, the routing key, the JSON payload as
an ordered key/value mapping, and the persistent delivery mark. -/
structure Event where
  exchange : String
  routingKey : String
  payload : List (String × PyValue)
  persistent : Bool
  deriving Repr, DecidableEq

/-- `EXCHANGE_NAME` default (`app/rabbit.py` line 11). -/
def defaultExchangeName : String := "events_topic"

/-- Embeds `publish_event` (`app/rabbit.py` lines 14-55) with the
broker's reachability passed in as `brokerUp`: when the connection can
be established the message is published, persistent, on the topic
exchange under the routing key, and the connection is closed; when it
cannot, the connection attempt raises, modelled as an error. -/
def publish_event (brokerUp : Bool) (exchangeName : String)
    (routing_key : String) (payload : List (String × PyValue)) :
    Except String Event :=
  if brokerUp then
    .ok ⟨exchangeName, routing_key, payload, true⟩
  else
    .error "broker connection failed"

/-- Builds the `workout.created` payload dict of `create_workout`
(`app/main.py` lines 146-153) by attribute access on the committed and
refreshed row, in source order; the first access is `workout.id`, an
attribute `WorkoutDB` does not define, so the build raises
`AttributeError` (`none`) there. -/
def buildCreatedPayload (w : WorkoutDB) : Option (List (String × PyValue)) := do
  let vId ← w.getAttr "id"
  let vUser ← w.getAttr "user_id"
  let vType ← w.getAttr "workout_type"
  let vDur ← w.getAttr "duration_minutes"
  let vCal ← w.getAttr "calories"
  let vDate ← w.getAttr "workout_date"
  pure [("workout_id", vId), ("user_id", vUser), ("workout_type", vType),
        ("duration_minutes", vDur), ("calories", vCal),
        ("workout_date", vDate)]

/-- Per-request environment of the POST /workouts handler: what the
users service does when called, whether the broker is reachable, the
`APP_ENV` variable, and the current time. -/
structure RequestEnv where
  httpResp : HttpOutcome
  brokerUp : Bool
  appEnv : Option String
  now : Nat
  deriving Repr, DecidableEq

/-- Outcome of a `create_workout` request: the 201 response with the
created row, a raised `HTTPException`, or an unhandled exception
(surfacing as a server error) with its message. -/
inductive CreateResponse where
  | created : WorkoutDB → CreateResponse
  | httpError : HTTPError → CreateResponse
  | internalError : String → CreateResponse
  deriving Repr, DecidableEq

/-- The stages of the handler, for stating ordering properties:
the dependency check, the local write (add/commit/refresh), the event
publish attempt. -/
inductive Step where
  | check : Step
  | write : Step
  | publish : Step
  deriving Repr, DecidableEq

/-- Everything one `create_workout` run produced: the response, the
database after the run, the breaker after the run, how many network
calls reached the users service, the events delivered to the broker,
and the ordered list of stages entered. -/
structure RunResult where
  response : CreateResponse
  db : List WorkoutDB
  breaker : Breaker
  networkCalls : Nat
  published : List Event
  trace : List Step
  deriving Repr, DecidableEq

/-- The row `create_workout` constructs and commits (`app/main.py`
lines 127-139): the payload's fields, with the primary key assigned by
the database on commit (modelled as one past the current row count). -/
def newWorkoutRow (db : List WorkoutDB) (payload : WorkoutInput) :
    WorkoutDB :=
  ⟨db.length + 1, payload.user_id, payload.workout_type,
   payload.duration_minutes, payload.calories, payload.workout_date,
   payload.notes⟩

/-- Embeds `create_workout` (`app/main.py` lines 121-156).  First
`ensure_user_exists` runs; a raised `HTTPException` ends the request
with no write and no publish.  Then the row is added, committed and
refreshed.  Then, unless `APP_ENV` is "test", the event payload is
built from the refreshed row and `publish_event` is awaited; an
exception there (the `AttributeError` from `workout.id`, or a broker
failure) propagates uncaught, after the commit.  On success the 201
response carries the row. -/
def create_workout (b : Breaker) (db : List WorkoutDB)
    (env : RequestEnv) (payload : WorkoutInput) : RunResult :=
  match ensure_user_exists b env.now env.httpResp payload.user_id with
  | (b', performed, .error e) =>
      ⟨.httpError e, db, b', if performed then 1 else 0, [], [.check]⟩
  | (b', performed, .ok _) =>
      let nc := if performed then 1 else 0
      let w := newWorkoutRow db payload
      let db' := db ++ [w]
      if env.appEnv = some "test" then
        ⟨.created w, db', b', nc, [], [.check, .write]⟩
      else
        match buildCreatedPayload w with
        | none =>
            ⟨.internalError "AttributeError: WorkoutDB has no attribute id",
             db', b', nc, [], [.check, .write, .publish]⟩
        | some pl =>
            match publish_event env.brokerUp defaultExchangeName
                "workout.created" pl with
            | .ok ev =>
                ⟨.created w, db', b', nc, [ev], [.check, .write, .publish]⟩
            | .error msg =>
                ⟨.internalError msg, db', b', nc, [],
                 [.check, .write, .publish]⟩

/-- Outcome of the mandatory dependency call of the aggregation
orchestrator: transport failure, downstream not-found, some other
downstream error status with its detail, or success with the entity
payload (the response body, forwarded as the `primary` field). -/
inductive MandatoryOutcome where
  | transportError : MandatoryOutcome
  | notFound : MandatoryOutcome
  | errorStatus : Nat → String → MandatoryOutcome
  | success : List (String × PyValue) → MandatoryOutcome
  deriving Repr, DecidableEq

/-- Outcome of one optional dependency call: any failure (transport,
timeout, non-2xx), or success with that dependency's data. -/
inductive OptionalOutcome where
  | failure : OptionalOutcome
  | success : List (String × PyValue) → OptionalOutcome
  deriving Repr, DecidableEq

/-- The merged aggregation payload: the mandatory entity data
(`primary`), the locally owned records (`local`), and one field per
optional dependency, empty where that dependency failed
(`optional`). -/
structure AggregationResult where
  primary : List (String × PyValue)
  localRows : List WorkoutDB
  optionalFields : List (List (String × PyValue))
  deriving Repr, DecidableEq

/-- Terminal errors of the aggregation endpoint: 404 when the mandatory
dependency reports not-found, 502 when it is unreachable or faulted. -/
inductive AggError where
  | entityNotFound : AggError
  | badGateway : String → AggError
  deriving Repr, DecidableEq

/-- Maps one optional dependency's outcome into its field of the
result: empty on any failure. -/
def optionalField (o : OptionalOutcome) : List (String × PyValue) :=
  match o with
  | .failure => []
  | .success d => d

/-- Modelled from the spec: the aggregation orchestrator
(`aggregate(entityId)`, GET /summary/id, spec section 4.4) belongs to a
sibling service of this repository and its code is not under `app/`.
Step 1: the mandatory dependency call; transport failure is 502,
not-found is 404, any other error status is 502 carrying the
downstream's detail.  Step 2: the local read (always available), passed
in as `localRows`.  Step 3: each optional dependency's failure is
replaced by an empty field.  Step 4: merge and return 200. -/
def aggregate (mand : MandatoryOutcome) (localRows : List WorkoutDB)
    (opts : List OptionalOutcome) : Except AggError AggregationResult :=
  match mand with
  | .transportError => .error (.badGateway "mandatory dependency unreachable")
  | .notFound => .error .entityNotFound
  | .errorStatus _ detail => .error (.badGateway detail)
  | .success body => .ok ⟨body, localRows, opts.map optionalField⟩

/-- Embeds the module-level configuration reads of `app/rabbit.py`:
line 7, `RABBIT_URL = os.environ["RABBIT_URL"]`, raises `KeyError` when
the variable is unset; line 11 defaults `EXCHANGE_NAME` to
"events_topic".  (Executing these lines requires the module to load at
all; `app/rabbit.py` line 1 reads `]import os`, which is a syntax
error, so in the source as committed the import fails before line 7
runs — see the results for the claim on this point.) -/
def rabbitModuleInit (env : String → Option String) :
    Except String (String × String) :=
  match env "RABBIT_URL" with
  | none => .error "KeyError: RABBIT_URL"
  | some url => .ok (url, (env "EXCHANGE_NAME").getD defaultExchangeName)

/-- `n` consecutive calls to `ensure_user_exists` against the same
downstream behaviour `resp`, all at time `now` (immediate retries),
each seeing the breaker state the previous call left behind.  Each
entry records the breaker after the call, whether the network call was
performed, and the outcome. -/
def iterateCalls (resp : HttpOutcome) (uid : Int) (now : Nat) :
    Nat → Breaker → List (Breaker × Bool × Except HTTPError Unit)
  | 0, _ => []
  | n + 1, b =>
      let e := ensure_user_exists b now resp uid
      e :: iterateCalls resp uid now n e.1

/-- A sequence of `create_workout` requests, all under the same
per-request environment, threading breaker and database through. -/
def createMany (env : RequestEnv) :
    List WorkoutInput → Breaker → List WorkoutDB → Breaker × List WorkoutDB
  | [], b, db => (b, db)
  | p :: ps, b, db =>
      let r := create_workout b db env p
      createMany env ps r.breaker r.db

/-- The breaker state reached after `k` consecutive failing calls at
time `now` on a fresh breaker with threshold `T` and reset timeout
`rt`: Closed with `k` counted failures while `k < T`, Open (opened at
`now`, count `T`) afterwards. -/
def failureRunState (T rt now k : Nat) : Breaker :=
  if k < T then ⟨T, rt, .closed, k, 0⟩ else ⟨T, rt, .opened, T, now⟩

/-- The entry produced by call `i + 1` (0-indexed `i`) of a run of
consecutive calls that all fail with error `e` at time `now`, on a
fresh breaker with threshold `T` and reset timeout `rt`. -/
def failureRunEntry (T rt now : Nat) (e : HTTPError) (i : Nat) :
    Breaker × Bool × Except HTTPError Unit :=
  if i + 1 < T then (⟨T, rt, .closed, i + 1, 0⟩, true, .error e)
  else if i + 1 = T then (⟨T, rt, .opened, T, now⟩, true, .error e)
  else (⟨T, rt, .opened, T, now⟩, false, .error ⟨503, circuitOpenDetail⟩)

theorem execute_closed_ok (b : Breaker) (now : Nat) (h : b.tag = .closed) :
    b.execute now (.ok ()) = ({ b with failureCount := 0 }, true, .opOk) := by
  simp [Breaker.execute, h]

theorem execute_closed_err_stay (b : Breaker) (now : Nat) (e : HTTPError)
    (h : b.tag = .closed) (hlt : b.failureCount + 1 < b.failureThreshold) :
    b.execute now (.error e) =
      ({ b with failureCount := b.failureCount + 1 }, true, .opFailed e) := by
  simp [Breaker.execute, h]
  omega

theorem execute_closed_err_trip (b : Breaker) (now : Nat) (e : HTTPError)
    (h : b.tag = .closed) (hge : b.failureThreshold ≤ b.failureCount + 1) :
    b.execute now (.error e) =
      ({ b with tag := .opened, failureCount := b.failureCount + 1,
                openedAt := now }, true, .opFailed e) := by
  simp [Breaker.execute, h, hge]

theorem execute_open_rejects (b : Breaker) (now : Nat)
    (op : Except HTTPError Unit) (h : b.tag = .opened)
    (hage : now - b.openedAt < b.resetTimeout) :
    b.execute now op = (b, false, .rejectedOpen) := by
  simp [Breaker.execute, h]
  omega

theorem ensure_closed_err_stay (b : Breaker) (now : Nat) (uid : Int)
    (resp : HttpOutcome) (e : HTTPError)
    (hop : check_user_exists_via_http uid resp = .error e)
    (h : b.tag = .closed) (hlt : b.failureCount + 1 < b.failureThreshold) :
    ensure_user_exists b now resp uid =
      ({ b with failureCount := b.failureCount + 1 }, true, .error e) := by
  simp [ensure_user_exists, hop, execute_closed_err_stay b now e h hlt]

theorem ensure_closed_err_trip (b : Breaker) (now : Nat) (uid : Int)
    (resp : HttpOutcome) (e : HTTPError)
    (hop : check_user_exists_via_http uid resp = .error e)
    (h : b.tag = .closed) (hge : b.failureThreshold ≤ b.failureCount + 1) :
    ensure_user_exists b now resp uid =
      ({ b with tag := .opened, failureCount := b.failureCount + 1,
                openedAt := now }, true, .error e) := by
  simp [ensure_user_exists, hop, execute_closed_err_trip b now e h hge]

theorem ensure_open_rejects (b : Breaker) (now : Nat) (uid : Int)
    (resp : HttpOutcome) (h : b.tag = .opened)
    (hage : now - b.openedAt < b.resetTimeout) :
    ensure_user_exists b now resp uid =
      (b, false, .error ⟨503, circuitOpenDetail⟩) := by
  simp [ensure_user_exists,
        execute_open_rejects b now (check_user_exists_via_http uid resp) h hage]

theorem failureRun_step (T rt now m : Nat) (uid : Int) (hT : 1 ≤ T)
    (hrt : 0 < rt) :
    ensure_user_exists (failureRunState T rt now m) now .transportError uid =
      failureRunEntry T rt now ⟨503, transportUnavailableDetail⟩ m := by
  by_cases h1 : m + 1 < T
  · have hm : m < T := by omega
    rw [failureRunState, if_pos hm, failureRunEntry, if_pos h1]
    exact ensure_closed_err_stay ⟨T, rt, .closed, m, 0⟩ now uid .transportError
      ⟨503, transportUnavailableDetail⟩ rfl rfl h1
  · by_cases h2 : m + 1 = T
    · have hm : m < T := by omega
      rw [failureRunState, if_pos hm, failureRunEntry, if_neg h1, if_pos h2]
      have hstep := ensure_closed_err_trip ⟨T, rt, .closed, m, 0⟩ now uid
        .transportError ⟨503, transportUnavailableDetail⟩ rfl rfl
        (by show T ≤ m + 1; omega)
      rw [hstep]
      simp [h2]
    · have hm : ¬ m < T := by omega
      rw [failureRunState, if_neg hm, failureRunEntry, if_neg h1, if_neg h2]
      exact ensure_open_rejects ⟨T, rt, .opened, T, now⟩ now uid .transportError
        rfl (by simpa using hrt)

theorem failureRunEntry_state (T rt now m : Nat) (e : HTTPError) :
    (failureRunEntry T rt now e m).1 = failureRunState T rt now (m + 1) := by
  unfold failureRunEntry failureRunState
  by_cases h1 : m + 1 < T
  · rw [if_pos h1, if_pos h1]
  · by_cases h2 : m + 1 = T
    · rw [if_neg h1, if_pos h2, if_neg h1]
    · rw [if_neg h1, if_neg h2, if_neg h1]

theorem iterateCalls_failureRun_get (T rt : Nat) (uid : Int) (now : Nat)
    (hT : 1 ≤ T) (hrt : 0 < rt) :
    ∀ n m i, i < n →
      (iterateCalls .transportError uid now n (failureRunState T rt now m))[i]? =
        some (failureRunEntry T rt now ⟨503, transportUnavailableDetail⟩
              (m + i)) := by
  intro n
  induction n with
  | zero => intro m i hi; omega
  | succ k ih =>
      intro m i hi
      simp only [iterateCalls]
      rw [failureRun_step T rt now m uid hT hrt,
          failureRunEntry_state T rt now m]
      match i with
      | 0 => simp
      | j + 1 =>
          have hj : j < k := by omega
          have : m + (j + 1) = (m + 1) + j := by omega
          rw [this]
          simpa using ih (m + 1) j hj

/-- C1.  Every run of `N` consecutive transport-failing calls through
the breaker-guarded user check (threshold `T`, positive reset timeout,
all calls immediate, at the same instant `now`), starting from a fresh
breaker: each of calls `1..T-1` performs the underlying HTTP operation,
returns the plain service-unavailable 503, and leaves the breaker
Closed; call `T` performs the operation, returns the plain 503, and
opens the breaker exactly there (`openedAt = now`); every call after
call `T` is rejected with the distinct circuit-open 503 without
performing the underlying operation. -/
theorem breaker_consecutive_failures_open_at_threshold
    (T rt N : Nat) (uid : Int) (now : Nat)
    (hT : 1 ≤ T) (hrt : 0 < rt) (i : Nat) (hi : i < N) :
    (i + 1 < T →
      (iterateCalls .transportError uid now N (Breaker.fresh T rt))[i]? =
        some (⟨T, rt, .closed, i + 1, 0⟩, true,
              .error ⟨503, transportUnavailableDetail⟩)) ∧
    (i + 1 = T →
      (iterateCalls .transportError uid now N (Breaker.fresh T rt))[i]? =
        some (⟨T, rt, .opened, T, now⟩, true,
              .error ⟨503, transportUnavailableDetail⟩)) ∧
    (T ≤ i →
      (iterateCalls .transportError uid now N (Breaker.fresh T rt))[i]? =
        some (⟨T, rt, .opened, T, now⟩, false,
              .error ⟨503, circuitOpenDetail⟩)) := by
  have hfresh : Breaker.fresh T rt = failureRunState T rt now 0 := by
    rw [Breaker.fresh, failureRunState, if_pos (by omega)]
  have key := iterateCalls_failureRun_get T rt uid now hT hrt N 0 i hi
  rw [Nat.zero_add] at key
  rw [hfresh, key]
  refine ⟨fun h1 => ?_, fun h2 => ?_, fun h3 => ?_⟩
  · rw [failureRunEntry, if_pos h1]
  · rw [failureRunEntry, if_neg (by omega), if_pos h2]
  · rw [failureRunEntry, if_neg (by omega), if_neg (by omega)]

/-- Witness for C1: threshold 3, reset 30, five immediate transport
failures; the fourth call (index 3) is rejected circuit-open without a
network call. -/
theorem breaker_consecutive_failures_open_at_threshold_witness :
    (iterateCalls .transportError 1 0 5 (Breaker.fresh 3 30))[3]? =
      some (⟨3, 30, .opened, 3, 0⟩, false,
            .error ⟨503, circuitOpenDetail⟩) :=
  (breaker_consecutive_failures_open_at_threshold 3 30 5 1 0 (by decide)
    (by decide) 3 (by decide)).2.2 (by decide)

/-- C4.  The translation table of the user existence check: transport
failure raises 503; a downstream 404 raises a 404 naming the user; a
downstream status of 500 or more raises 503; any other non-200 status
raises 503; exactly 200 returns without error. -/
theorem user_check_status_taxonomy (uid : Int) (code : Nat) :
    check_user_exists_via_http uid .transportError =
      .error ⟨503, transportUnavailableDetail⟩ ∧
    check_user_exists_via_http uid (.status 404) =
      .error ⟨404, "User " ++ toString uid ++ " not found."⟩ ∧
    (500 ≤ code → check_user_exists_via_http uid (.status code) =
      .error ⟨503, downstreamErrorDetail⟩) ∧
    (code ≠ 404 → code < 500 → code ≠ 200 →
      check_user_exists_via_http uid (.status code) =
      .error ⟨503, unexpectedStatusDetail⟩) ∧
    check_user_exists_via_http uid (.status 200) = .ok () := by
  refine ⟨rfl, by simp [check_user_exists_via_http], ?_, ?_, rfl⟩
  · intro h
    simp only [check_user_exists_via_http]
    rw [if_neg (by omega), if_pos h]
  · intro h404 h500 h200
    simp only [check_user_exists_via_http]
    rw [if_neg h404, if_neg (by omega), if_pos h200]

/-- Witness for C4: a downstream 502 is translated to the
downstream-error 503. -/
theorem user_check_status_taxonomy_witness :
    check_user_exists_via_http 7 (.status 502) =
      .error ⟨503, downstreamErrorDetail⟩ :=
  (user_check_status_taxonomy 7 502).2.2.1 (by decide)

/-- C5.  A breaker that has been Open for at least `resetTimeout`
attempts the next call live (the HalfOpen trial): the underlying
operation is performed; if it succeeds the breaker transitions to
Closed with `failureCount = 0`; if it fails the breaker transitions
back to Open with a fresh `openedAt = now`, the failure count left
where it was, and the operation's error propagating. -/
theorem breaker_half_open_trial (b : Breaker) (now : Nat)
    (op : Except HTTPError Unit) (hOpen : b.tag = .opened)
    (hAged : b.resetTimeout ≤ now - b.openedAt) :
    (b.execute now op).2.1 = true ∧
    (op = .ok () → (b.execute now op).1.tag = .closed ∧
                   (b.execute now op).1.failureCount = 0) ∧
    (∀ e, op = .error e → (b.execute now op).1.tag = .opened ∧
                          (b.execute now op).1.openedAt = now ∧
                          (b.execute now op).1.failureCount = b.failureCount ∧
                          (b.execute now op).2.2 = .opFailed e) := by
  cases op with
  | ok u =>
      cases u
      simp [Breaker.execute, hOpen, if_pos hAged, Breaker.halfOpenTrial]
  | error e =>
      simp [Breaker.execute, hOpen, if_pos hAged, Breaker.halfOpenTrial]

/-- Witness for C5: an aged-open breaker whose trial succeeds returns
to Closed. -/
theorem breaker_half_open_trial_witness :
    ((⟨3, 30, .opened, 3, 0⟩ : Breaker).execute 30 (.ok ())).1.tag =
      BreakerTag.closed :=
  ((breaker_half_open_trial ⟨3, 30, .opened, 3, 0⟩ 30 (.ok ()) rfl
    (by decide)).2.1 rfl).1

/-- Whether the breaker lets the next call through to the underlying
operation at time `now`: always when Closed or HalfOpen, and when Open
only once `resetTimeout` has elapsed since `openedAt`. -/
def Breaker.allowsCall (b : Breaker) (now : Nat) : Bool :=
  match b.tag with
  | .closed => true
  | .opened => decide (b.resetTimeout ≤ now - b.openedAt)
  | .halfOpen => true

theorem execute_err_of_allows (b : Breaker) (now : Nat) (e : HTTPError)
    (h : b.allowsCall now = true) :
    ∃ b', b.execute now (.error e) = (b', true, .opFailed e) := by
  rcases htag : b.tag with _ | _ | _
  · by_cases hth : b.failureThreshold ≤ b.failureCount + 1
    · exact ⟨_, execute_closed_err_trip b now e htag hth⟩
    · exact ⟨_, execute_closed_err_stay b now e htag (by omega)⟩
  · have hage : b.resetTimeout ≤ now - b.openedAt := by
      have := h
      rw [Breaker.allowsCall, htag] at this
      simpa using this
    exact ⟨{ b with tag := .opened, openedAt := now },
      by simp [Breaker.execute, htag, if_pos hage, Breaker.halfOpenTrial]⟩
  · exact ⟨{ b with tag := .opened, openedAt := now },
      by simp [Breaker.execute, htag, Breaker.halfOpenTrial]⟩

theorem ensure_err_of_allows (b : Breaker) (now : Nat) (uid : Int)
    (resp : HttpOutcome) (e : HTTPError)
    (hop : check_user_exists_via_http uid resp = .error e)
    (h : b.allowsCall now = true) :
    ∃ b', ensure_user_exists b now resp uid = (b', true, .error e) := by
  obtain ⟨b', hb⟩ := execute_err_of_allows b now e h
  exact ⟨b', by simp [ensure_user_exists, hop, hb]⟩

/-- The 404 branch of the check, evaluated. -/
theorem check_404 (uid : Int) :
    check_user_exists_via_http uid (.status 404) =
      .error ⟨404, "User " ++ toString uid ++ " not found."⟩ := by
  simp [check_user_exists_via_http]

/-- Unfolding of `create_workout` when the guarded check raises. -/
theorem create_workout_err (b : Breaker) (db : List WorkoutDB)
    (env : RequestEnv) (p : WorkoutInput) (b' : Breaker) (performed : Bool)
    (e : HTTPError)
    (h : ensure_user_exists b env.now env.httpResp p.user_id =
         (b', performed, .error e)) :
    create_workout b db env p =
      ⟨.httpError e, db, b', if performed then 1 else 0, [], [.check]⟩ := by
  simp [create_workout, h]

/-- C6.  Whenever the breaker actually lets a `create_workout` request
through to the users service and the service reports 404, the request
ends with the 404 error naming the user, the database is unchanged (no
row is added), no event is published, and exactly one network call was
made. -/
theorem create_404_no_write_no_event (b : Breaker) (db : List WorkoutDB)
    (env : RequestEnv) (payload : WorkoutInput)
    (hResp : env.httpResp = .status 404)
    (hAllow : b.allowsCall env.now = true) :
    (create_workout b db env payload).response =
      .httpError ⟨404, "User " ++ toString payload.user_id ++ " not found."⟩ ∧
    (create_workout b db env payload).db = db ∧
    (create_workout b db env payload).published = [] ∧
    (create_workout b db env payload).networkCalls = 1 := by
  obtain ⟨b', hb⟩ := ensure_err_of_allows b env.now payload.user_id
    (.status 404) ⟨404, "User " ++ toString payload.user_id ++ " not found."⟩
    (check_404 payload.user_id) hAllow
  rw [← hResp] at hb
  rw [create_workout_err b db env payload b' true _ hb]
  exact ⟨rfl, rfl, rfl, rfl⟩

/-- Witness for C6: a concrete request whose user lookup yields 404 is
rejected with the 404 and writes nothing. -/
theorem create_404_no_write_no_event_witness :
    (create_workout (Breaker.fresh 3 30) []
      ⟨.status 404, true, some "test", 0⟩
      ⟨999, "Run", 30, some 250, "2025-12-30", some "Easy run"⟩).db =
      ([] : List WorkoutDB) :=
  (create_404_no_write_no_event (Breaker.fresh 3 30) []
    ⟨.status 404, true, some "test", 0⟩
    ⟨999, "Run", 30, some 250, "2025-12-30", some "Easy run"⟩
    rfl rfl).2.1

/-- `WorkoutDB` has no attribute `id`: the access in the event payload
raises `AttributeError`. -/
theorem getAttr_id (w : WorkoutDB) : w.getAttr "id" = none := by
  simp [WorkoutDB.getAttr]

/-- The payload build of `create_workout` fails on its first attribute
access, `workout.id`. -/
theorem buildCreatedPayload_none (w : WorkoutDB) :
    buildCreatedPayload w = none := by
  simp [buildCreatedPayload, getAttr_id]

/-- C7.  Within one `create_workout` request the stages happen in the
fixed order check, write, publish: the trace is always a prefix of
`[check, write, publish]`; when the check fails nothing else runs (the
response is the raised error, the database is untouched, nothing is
published); the write, when it runs, commits exactly the new row; the
publish stage runs only after the write and only outside test mode;
and any published event's payload is derived from the committed row
alone. -/
theorem create_workout_stage_order (b : Breaker) (db : List WorkoutDB)
    (env : RequestEnv) (payload : WorkoutInput) :
    ((create_workout b db env payload).trace = [.check] ∨
     (create_workout b db env payload).trace = [.check, .write] ∨
     (create_workout b db env payload).trace = [.check, .write, .publish]) ∧
    ((create_workout b db env payload).trace = [.check] →
      (∃ e, (create_workout b db env payload).response = .httpError e) ∧
      (create_workout b db env payload).db = db ∧
      (create_workout b db env payload).published = []) ∧
    (Step.write ∈ (create_workout b db env payload).trace →
      (create_workout b db env payload).db =
        db ++ [newWorkoutRow db payload]) ∧
    (Step.publish ∈ (create_workout b db env payload).trace →
      env.appEnv ≠ some "test" ∧
      Step.write ∈ (create_workout b db env payload).trace) ∧
    (∀ ev ∈ (create_workout b db env payload).published,
      ev.routingKey = "workout.created" ∧
      buildCreatedPayload (newWorkoutRow db payload) = some ev.payload) := by
  rcases h : ensure_user_exists b env.now env.httpResp payload.user_id with
    ⟨b', performed, res⟩
  cases res with
  | error e =>
      rw [create_workout_err b db env payload b' performed e h]
      refine ⟨.inl rfl, fun _ => ⟨⟨e, rfl⟩, rfl, rfl⟩, ?_, ?_, ?_⟩
      · intro hmem; simp at hmem
      · intro hmem; simp at hmem
      · intro ev hmem; simp at hmem
  | ok u =>
      cases u
      by_cases hEnv : env.appEnv = some "test"
      · have hcw : create_workout b db env payload =
            ⟨.created (newWorkoutRow db payload),
             db ++ [newWorkoutRow db payload], b',
             if performed then 1 else 0, [], [.check, .write]⟩ := by
          simp [create_workout, h, hEnv]
        rw [hcw]
        refine ⟨.inr (.inl rfl), fun hc => by simp at hc, fun _ => rfl,
                ?_, ?_⟩
        · intro hmem; simp at hmem
        · intro ev hmem; simp at hmem
      · have hcw : create_workout b db env payload =
            ⟨.internalError "AttributeError: WorkoutDB has no attribute id",
             db ++ [newWorkoutRow db payload], b',
             if performed then 1 else 0, [], [.check, .write, .publish]⟩ := by
          simp [create_workout, h, hEnv,
                buildCreatedPayload_none (newWorkoutRow db payload)]
        rw [hcw]
        refine ⟨.inr (.inr rfl), fun hc => by simp at hc, fun _ => rfl,
                fun _ => ⟨hEnv, by simp⟩, ?_⟩
        intro ev hmem; simp at hmem

/-- Witness for C7: for a concrete accepted request in test mode the
write stage ran and committed exactly the new row. -/
theorem create_workout_stage_order_witness :
    (create_workout (Breaker.fresh 3 30) []
      ⟨.status 200, true, some "test", 0⟩
      ⟨1, "Run", 30, some 250, "2025-12-30", some "Easy run"⟩).db =
      [] ++ [newWorkoutRow []
        ⟨1, "Run", 30, some 250, "2025-12-30", some "Easy run"⟩] :=
  (create_workout_stage_order (Breaker.fresh 3 30) []
    ⟨.status 200, true, some "test", 0⟩
    ⟨1, "Run", 30, some 250, "2025-12-30", some "Easy run"⟩).2.2.1
    (by decide)

/-- C9.  In non-test mode, every `create_workout` request whose user
check passes ends in the unhandled `AttributeError` from reading
`workout.id` (the model's primary key is `workout_id`), after the row
has already been committed: the response is the propagated error, not
the 201, and the new row is persisted. -/
theorem create_workout_attribute_error (b : Breaker) (db : List WorkoutDB)
    (env : RequestEnv) (payload : WorkoutInput)
    (hEnv : env.appEnv ≠ some "test")
    (hOk : (ensure_user_exists b env.now env.httpResp payload.user_id).2.2 =
           .ok ()) :
    (create_workout b db env payload).response =
      .internalError "AttributeError: WorkoutDB has no attribute id" ∧
    (create_workout b db env payload).db =
      db ++ [newWorkoutRow db payload] := by
  rcases h : ensure_user_exists b env.now env.httpResp payload.user_id with
    ⟨b', performed, res⟩
  rw [h] at hOk
  cases res with
  | error e => simp at hOk
  | ok u =>
      cases u
      constructor
      · simp [create_workout, h, hEnv,
              buildCreatedPayload_none (newWorkoutRow db payload)]
      · simp [create_workout, h, hEnv,
              buildCreatedPayload_none (newWorkoutRow db payload)]

/-- Witness for C9: a concrete non-test request with a healthy user
service errors on the payload's `workout.id` access after committing
the row. -/
theorem create_workout_attribute_error_witness :
    (create_workout (Breaker.fresh 3 30) []
      ⟨.status 200, true, none, 0⟩
      ⟨1, "Run", 30, some 250, "2025-12-30", some "Easy run"⟩).response =
      .internalError "AttributeError: WorkoutDB has no attribute id" :=
  (create_workout_attribute_error (Breaker.fresh 3 30) []
    ⟨.status 200, true, none, 0⟩
    ⟨1, "Run", 30, some 250, "2025-12-30", some "Easy run"⟩
    (by decide) rfl).1

/-- C2 (code behaviour at the failing input).  When the user check
passes and the subsequent publish step fails — in non-test mode it
always does: the payload build raises `AttributeError` before
`publish_event` can even be awaited, and the broker being down would
equally raise — the exception propagates out of the handler: the 201
response with the created workout is NOT returned, although the
already-committed workout row stays persisted and unchanged. -/
theorem create_workout_publish_failure_blocks_response (b : Breaker)
    (db : List WorkoutDB) (env : RequestEnv) (payload : WorkoutInput)
    (hEnv : env.appEnv ≠ some "test")
    (hOk : (ensure_user_exists b env.now env.httpResp payload.user_id).2.2 =
           .ok ())
    (hBroker : env.brokerUp = false) :
    (∀ w, (create_workout b db env payload).response ≠ .created w) ∧
    (create_workout b db env payload).db =
      db ++ [newWorkoutRow db payload] ∧
    (create_workout b db env payload).published = [] := by
  rcases h : ensure_user_exists b env.now env.httpResp payload.user_id with
    ⟨b', performed, res⟩
  rw [h] at hOk
  cases res with
  | error e => simp at hOk
  | ok u =>
      cases u
      have hcw : create_workout b db env payload =
          ⟨.internalError "AttributeError: WorkoutDB has no attribute id",
           db ++ [newWorkoutRow db payload], b',
           if performed then 1 else 0, [], [.check, .write, .publish]⟩ := by
        simp [create_workout, h, hEnv,
              buildCreatedPayload_none (newWorkoutRow db payload)]
      rw [hcw]
      exact ⟨fun w hw => by simp at hw, rfl, rfl⟩

/-- Witness for C2's code behaviour: a concrete non-test request with
the broker unreachable commits the row but does not return the 201. -/
theorem create_workout_publish_failure_blocks_response_witness :
    (create_workout (Breaker.fresh 3 30) []
      ⟨.status 200, false, none, 0⟩
      ⟨1, "Run", 30, some 250, "2025-12-30", some "Easy run"⟩).db =
      [] ++ [newWorkoutRow []
        ⟨1, "Run", 30, some 250, "2025-12-30", some "Easy run"⟩] :=
  (create_workout_publish_failure_blocks_response (Breaker.fresh 3 30) []
    ⟨.status 200, false, none, 0⟩
    ⟨1, "Run", 30, some 250, "2025-12-30", some "Easy run"⟩
    (by decide) rfl rfl).2.1

theorem ensure_failureRun_step (T rt now m : Nat) (uid : Int)
    (resp : HttpOutcome) (e : HTTPError)
    (hop : check_user_exists_via_http uid resp = .error e) (hrt : 0 < rt) :
    ∃ e2 performed,
      ensure_user_exists (failureRunState T rt now m) now resp uid =
        (failureRunState T rt now (m + 1), performed, .error e2) := by
  by_cases h1 : m + 1 < T
  · have hm : m < T := by omega
    refine ⟨e, true, ?_⟩
    rw [failureRunState, if_pos hm, failureRunState, if_pos h1]
    exact ensure_closed_err_stay ⟨T, rt, .closed, m, 0⟩ now uid resp e hop rfl h1
  · by_cases h2 : m + 1 = T
    · have hm : m < T := by omega
      refine ⟨e, true, ?_⟩
      rw [failureRunState, if_pos hm, failureRunState, if_neg h1]
      have hstep := ensure_closed_err_trip ⟨T, rt, .closed, m, 0⟩ now uid
        resp e hop rfl (by show T ≤ m + 1; omega)
      rw [hstep]
      simp [h2]
    · have hm : ¬ m < T := by omega
      refine ⟨⟨503, circuitOpenDetail⟩, false, ?_⟩
      rw [failureRunState, if_neg hm, failureRunState, if_neg (by omega)]
      exact ensure_open_rejects ⟨T, rt, .opened, T, now⟩ now uid resp rfl
        (by simpa using hrt)

theorem createMany_404_run (env : RequestEnv)
    (hResp : env.httpResp = .status 404) (T rt : Nat) (hrt : 0 < rt) :
    ∀ (pls : List WorkoutInput) (k : Nat) (db : List WorkoutDB),
      createMany env pls (failureRunState T rt env.now k) db =
        (failureRunState T rt env.now (k + pls.length), db) := by
  intro pls
  induction pls with
  | nil => intro k db; simp [createMany]
  | cons p ps ih =>
      intro k db
      obtain ⟨e2, performed, hstep⟩ := ensure_failureRun_step T rt env.now k
        p.user_id (.status 404) ⟨404, "User " ++ toString p.user_id ++
          " not found."⟩ (check_404 p.user_id) hrt
      rw [← hResp] at hstep
      simp only [createMany]
      rw [create_workout_err (failureRunState T rt env.now k) db env p
        (failureRunState T rt env.now (k + 1)) performed e2 hstep]
      have harith : k + (p :: ps).length = (k + 1) + ps.length := by
        simp; omega
      rw [harith]
      exact ih (k + 1) db

/-- C8.  A downstream 404 counts as a breaker failure: every sequence
of `failureThreshold` consecutive `create_workout` requests whose user
lookups all return 404, starting from a fresh breaker, opens the
circuit (Open, opened at the time of the run, with no row ever
written); and while the reset timeout has not elapsed, any subsequent
request — whatever user id it references and whatever the users
service would answer — is rejected with the circuit-open 503, makes
zero network calls, writes nothing and publishes nothing. -/
theorem notfound_failures_open_circuit (T rt : Nat) (hT : 1 ≤ T)
    (hrt : 0 < rt) (env : RequestEnv) (hResp : env.httpResp = .status 404)
    (pls : List WorkoutInput) (hLen : pls.length = T)
    (db : List WorkoutDB) :
    (createMany env pls (Breaker.fresh T rt) db).1 =
      ⟨T, rt, .opened, T, env.now⟩ ∧
    (createMany env pls (Breaker.fresh T rt) db).2 = db ∧
    ∀ (env2 : RequestEnv) (p2 : WorkoutInput) (db2 : List WorkoutDB),
      env2.now - env.now < rt →
      (create_workout (createMany env pls (Breaker.fresh T rt) db).1
        db2 env2 p2).response = .httpError ⟨503, circuitOpenDetail⟩ ∧
      (create_workout (createMany env pls (Breaker.fresh T rt) db).1
        db2 env2 p2).networkCalls = 0 ∧
      (create_workout (createMany env pls (Breaker.fresh T rt) db).1
        db2 env2 p2).db = db2 ∧
      (create_workout (createMany env pls (Breaker.fresh T rt) db).1
        db2 env2 p2).published = [] := by
  have hfresh : Breaker.fresh T rt = failureRunState T rt env.now 0 := by
    rw [Breaker.fresh, failureRunState, if_pos (by omega)]
  have hrun := createMany_404_run env hResp T rt hrt pls 0 db
  rw [Nat.zero_add, hLen] at hrun
  have hopened : failureRunState T rt env.now T =
      ⟨T, rt, .opened, T, env.now⟩ := by
    rw [failureRunState, if_neg (by omega)]
  rw [hopened] at hrun
  rw [hfresh, hrun]
  refine ⟨rfl, rfl, fun env2 p2 db2 hage => ?_⟩
  have hreject := ensure_open_rejects ⟨T, rt, .opened, T, env.now⟩ env2.now
    p2.user_id env2.httpResp rfl (by simpa using hage)
  rw [create_workout_err ⟨T, rt, .opened, T, env.now⟩ db2 env2 p2
    ⟨T, rt, .opened, T, env.now⟩ false ⟨503, circuitOpenDetail⟩ hreject]
  exact ⟨rfl, rfl, rfl, rfl⟩

/-- Witness for C8: three 404-lookups open the default breaker and an
immediate fourth request, for an existing user, is rejected
circuit-open. -/
theorem notfound_failures_open_circuit_witness :
    (create_workout
      (createMany ⟨.status 404, true, some "test", 0⟩
        [⟨999, "Run", 30, some 250, "2025-12-30", some "Easy run"⟩,
         ⟨999, "Run", 30, some 250, "2025-12-30", some "Easy run"⟩,
         ⟨999, "Run", 30, some 250, "2025-12-30", some "Easy run"⟩]
        (Breaker.fresh 3 30) []).1
      [] ⟨.status 200, true, some "test", 10⟩
      ⟨1, "Run", 30, some 250, "2025-12-30", some "Easy run"⟩).response =
      .httpError ⟨503, circuitOpenDetail⟩ :=
  ((notfound_failures_open_circuit 3 30 (by decide) (by decide)
    ⟨.status 404, true, some "test", 0⟩ rfl
    [⟨999, "Run", 30, some 250, "2025-12-30", some "Easy run"⟩,
     ⟨999, "Run", 30, some 250, "2025-12-30", some "Easy run"⟩,
     ⟨999, "Run", 30, some 250, "2025-12-30", some "Easy run"⟩]
    rfl []).2.2 ⟨.status 200, true, some "test", 10⟩
    ⟨1, "Run", 30, some 250, "2025-12-30", some "Easy run"⟩ []
    (by decide)).1

/-- C3.  The aggregation's differentiated failure policy: when the
mandatory dependency call did not succeed, no `AggregationResult` is
ever returned (the outcome is a terminal error); a mandatory not-found
yields `entityNotFound` whatever the optional dependencies did; and
when the mandatory call succeeds, the 200 result is returned with the
mandatory body as `primary`, the local rows populated, and every failed
optional dependency's field empty. -/
theorem aggregate_failure_policy (mand : MandatoryOutcome)
    (localRows : List WorkoutDB) (opts : List OptionalOutcome) :
    ((∀ body, mand ≠ .success body) →
      ∃ err, aggregate mand localRows opts = .error err) ∧
    (mand = .notFound →
      aggregate mand localRows opts = .error .entityNotFound) ∧
    (∀ body, mand = .success body →
      aggregate mand localRows opts =
        .ok ⟨body, localRows, opts.map optionalField⟩) ∧
    optionalField .failure = [] := by
  refine ⟨?_, ?_, ?_, rfl⟩
  · intro hns
    cases mand with
    | transportError =>
        exact ⟨.badGateway "mandatory dependency unreachable", rfl⟩
    | notFound => exact ⟨.entityNotFound, rfl⟩
    | errorStatus code detail => exact ⟨.badGateway detail, rfl⟩
    | success body => exact absurd rfl (hns body)
  · intro h; rw [h]; rfl
  · intro body h; rw [h]; rfl

/-- Witness for C3: a mandatory not-found with a failing optional
dependency still yields the 404, not a result. -/
theorem aggregate_failure_policy_witness :
    aggregate .notFound [] [.failure] = .error .entityNotFound :=
  (aggregate_failure_policy .notFound [] [.failure]).2.1 rfl

/-- C10 (intended behaviour of `app/rabbit.py` lines 7 and 11): with no
`RABBIT_URL` in the environment the module-level read raises `KeyError`
whatever else is set, and with `RABBIT_URL` present but `EXCHANGE_NAME`
absent the exchange name defaults to "events_topic".  (In the source as
committed this code is never reached: line 1 of `app/rabbit.py` is a
syntax error.) -/
theorem rabbit_config_requires_url (env : String → Option String) :
    (env "RABBIT_URL" = none →
      rabbitModuleInit env = .error "KeyError: RABBIT_URL") ∧
    (∀ url, env "RABBIT_URL" = some url → env "EXCHANGE_NAME" = none →
      rabbitModuleInit env = .ok (url, defaultExchangeName)) := by
  constructor
  · intro h
    rw [rabbitModuleInit, h]
  · intro url hurl hex
    rw [rabbitModuleInit, hurl, hex]
    rfl

/-- Witness for C10: the empty environment fails the module read with
the missing-key error. -/
theorem rabbit_config_requires_url_witness :
    rabbitModuleInit (fun _ => none) = .error "KeyError: RABBIT_URL" :=
  (rabbit_config_requires_url (fun _ => none)).1 rfl
